import Mathlib

/-
Verification of the ray-based multiprocessing gRPC ingestion server
(engine/providers/skywalking/log/grpc/servers/ray_server.py).

The development shallowly embeds the three parts of the module that the
spec describes:

 * `_reserve_port` (the port-reservation context manager): modelled by
   `reservePort`, parameterised by the platform (whether the
   SO_REUSEPORT constant exists, i.e. whether touching it raises
   AttributeError) and by which ports the environment lets a bind
   succeed on; the context-manager body is an explicit function
   argument, and the outcome records whether the probe socket was
   closed.

 * `GRPCIngestorActor` (the worker): modelled by a record of the
   observable actor-owned state. `init` mirrors `__init__`,
   `runServer` mirrors the state changes `_run_server` performs
   before it blocks in `wait_for_termination`, and `stop` / `destroy`
   mirror the two one-line methods (each sets `self.run = False` and
   does nothing else).

 * `main` (the supervisor): modelled by the trace of lifecycle
   dispatches it emits (`mainTrace`), indexed by the SO_REUSEPORT
   support flag and by how the wait on the workers' `start()` calls
   exits (normal completion, KeyboardInterrupt, or any other error),
   plus `mainResult` recording whether `main` itself raises, and
   `supervisorActors` composing the reservation with the pool
   construction.
-/

/-- Errors the Python code can raise in the modelled region: a failure of
`sock.bind` on the probe port, and a generic other exception. -/
inductive PyErr where
  | bindError
  | other
deriving DecidableEq, Repr

/-- The two platform classes the source distinguishes: Unix-like systems
where `socket.SO_REUSEPORT` exists and setting it succeeds, and systems
(Windows) where reading the constant raises AttributeError, which the
source catches. -/
inductive Platform where
  | reuseportAvailable
  | reuseportAttrMissing
deriving DecidableEq, Repr

/-- The `supported` flag `_reserve_port` computes: True unless the
AttributeError branch ran. -/
def platformSupported : Platform → Bool
  | Platform.reuseportAvailable => true
  | Platform.reuseportAttrMissing => false

/-- Outcome of one execution of the `_reserve_port` context manager
around a body: the value returned or exception propagated, and whether
`sock.close()` ran before control left the function. -/
structure ReserveOutcome (A : Type) where
  result : Except PyErr A
  probeClosed : Bool
deriving Repr

/-- `sock.bind((chr(39)+chr(39), req))` followed by the
`sock.getsockname()[1]` read-back: succeeds with the bound port exactly
when the environment has the requested port available. -/
def bindSock (avail : Nat → Bool) (req : Nat) : Except PyErr Nat :=
  if avail req then Except.ok req else Except.error PyErr.bindError

/-- `_reserve_port`, line by line: open the probe socket; try
`setsockopt(SO_REUSEPORT)` catching only AttributeError and recording
`supported`; then `sock.bind((wildcard, 50051))` OUTSIDE any
try/finally, so a bind failure propagates with the socket still open;
then `try: yield (port, supported) finally: sock.close()`, so once the
bind succeeded the socket is closed whether the body returns or
raises. -/
def reservePort {A : Type} (plat : Platform) (avail : Nat → Bool)
    (body : Nat → Bool → Except PyErr A) : ReserveOutcome A :=
  let supported := platformSupported plat
  match bindSock avail 50051 with
  | Except.error e => { result := Except.error e, probeClosed := false }
  | Except.ok port => { result := body port supported, probeClosed := true }

/-- The observable state a `GRPCIngestorActor` owns. `run`,
`bind_address`, `redis_info` and the `grpc.aio.server` object are set in
`__init__`; `redisConnected`, `servicerAdded`, `portAdded` and
`serverStarted` record the effects of `_run_server`; `serverStopCalled`
records whether `self.server.stop` was ever invoked, and `redisClosed`
whether the backing-store connection was ever released. -/
structure GRPCIngestorActor where
  run : Option Bool
  bind_address : String
  redis_info : String
  serverStarted : Bool
  serverStopCalled : Bool
  servicerAdded : Bool
  portAdded : Bool
  redisConnected : Bool
  redisClosed : Bool
deriving DecidableEq, Repr

/-- `__init__`: `self.run = None`, store the redis info and bind
address, create the server (no port bound yet, nothing connected). -/
def GRPCIngestorActor.init (ri ba : String) : GRPCIngestorActor :=
  { run := none
    bind_address := ba
    redis_info := ri
    serverStarted := false
    serverStopCalled := false
    servicerAdded := false
    portAdded := false
    redisConnected := false
    redisClosed := false }

/-- The state changes `_run_server` (hence `start`) performs before it
suspends in `wait_for_termination`: connect to redis, register the
servicer, add the insecure port, start the server. -/
def GRPCIngestorActor.runServer (a : GRPCIngestorActor) : GRPCIngestorActor :=
  { a with
    redisConnected := true
    servicerAdded := true
    portAdded := true
    serverStarted := true }

/-- `def stop(self): self.run = False` — the whole method body. -/
def GRPCIngestorActor.stop (a : GRPCIngestorActor) : GRPCIngestorActor :=
  { a with run := some false }

/-- `def destroy(self): self.run = False` — the whole method body. -/
def GRPCIngestorActor.destroy (a : GRPCIngestorActor) : GRPCIngestorActor :=
  { a with run := some false }

/-- A worker that has completed the non-blocking part of `start()` and
is serving. -/
def servingActor : GRPCIngestorActor :=
  GRPCIngestorActor.runServer
    (GRPCIngestorActor.init "redis_info" ("localhost:" ++ toString 50051))

/-- Pool size chosen by `main`: `range(1)` when `not success`, else
`range(2)` (the worker count is hard-coded to 2). -/
def poolSize (supported : Bool) : Nat :=
  if supported then 2 else 1

/-- The actor pool `main` constructs: one
`GRPCIngestorActor.remote(secrets_temp.redis_info, bind_address)` per
slot, where `bind_address = localhost:{port}` for the reserved port. -/
def mkActors (ri : String) (supported : Bool) (port : Nat) :
    List GRPCIngestorActor :=
  (List.range (poolSize supported)).map
    (fun _ => GRPCIngestorActor.init ri ("localhost:" ++ toString port))

/-- The reservation composed with the pool construction, as in `main`:
`with _reserve_port() as (port, success): ... mkActors ...`. -/
def supervisorActors (plat : Platform) (avail : Nat → Bool) (ri : String) :
    Except PyErr (List GRPCIngestorActor) :=
  (reservePort plat avail
    (fun port supported => Except.ok (mkActors ri supported port))).result

/-- How the `ray.get(refs)` wait phase of `main` exits. -/
inductive WaitOutcome where
  | normal
  | keyboardInterrupt
  | otherError
deriving DecidableEq, Repr

/-- Lifecycle dispatches `main` issues, tagged by worker index. -/
inductive Event where
  | constructActor (i : Nat)
  | startDispatch (i : Nat)
  | stopDispatch (i : Nat)
  | destroyDispatch (i : Nat)
deriving DecidableEq, BEq, Repr

def isStopEvt : Event → Bool
  | Event.stopDispatch _ => true
  | _ => false

def isDestroyEvt : Event → Bool
  | Event.destroyDispatch _ => true
  | _ => false

/-- No stop dispatch occurs at or after the first destroy dispatch. -/
def stopsBeforeDestroys (tr : List Event) : Bool :=
  (tr.dropWhile (fun e => !(isDestroyEvt e))).all (fun e => !(isStopEvt e))

/-- The dispatch trace of `main` after the reservation succeeded:
construct the pool, dispatch `start.remote()` to every worker, then
`try: ray.get(refs) except KeyboardInterrupt: stop.remote() on each
finally: destroy.remote() on each`. Only KeyboardInterrupt triggers the
stop loop; the `finally` destroy loop runs on every outcome. -/
def mainTrace (supported : Bool) (outcome : WaitOutcome) : List Event :=
  let n := poolSize supported
  ((List.range n).map Event.constructActor)
    ++ ((List.range n).map Event.startDispatch)
    ++ (match outcome with
        | WaitOutcome.keyboardInterrupt => (List.range n).map Event.stopDispatch
        | _ => [])
    ++ ((List.range n).map Event.destroyDispatch)

/-- Whether `main` itself returns or (re-)raises: KeyboardInterrupt is
caught, any other wait-phase error propagates after the `finally`. -/
def mainResult (outcome : WaitOutcome) : Except PyErr Unit :=
  match outcome with
  | WaitOutcome.otherError => Except.error PyErr.other
  | _ => Except.ok ()

/-- Environment in which every port is free. -/
def availAll : Nat → Bool := fun _ => true

/-- Environment in which exactly the fixed probe port 50051 is taken
and every other port is free. -/
def avail50051Busy : Nat → Bool := fun p => !(p == 50051)

/- ------------------------------------------------------------------ -/
/- Helper lemmas (shared across claims).                               -/
/- ------------------------------------------------------------------ -/

/-- The constructed pool is a replicate of one identical actor: same
redis info, same bind address built from the reserved port. -/
theorem mkActors_eq_replicate (ri : String) (s : Bool) (port : Nat) :
    mkActors ri s port =
      List.replicate (poolSize s)
        (GRPCIngestorActor.init ri ("localhost:" ++ toString port)) := by
  cases s <;> rfl

/- ------------------------------------------------------------------ -/
/- Claims.                                                             -/
/- ------------------------------------------------------------------ -/

/-- C1: however the wait phase of `main` exits — normal completion,
KeyboardInterrupt, or any other error — the `finally` block dispatches
`destroy()` exactly once to every worker that was constructed. -/
theorem main_destroy_dispatched_exactly_once :
    ∀ (supported : Bool) (outcome : WaitOutcome),
      ((List.range (poolSize supported)).all
        (fun i =>
          ((mainTrace supported outcome).count (Event.constructActor i) == 1)
            && ((mainTrace supported outcome).count (Event.destroyDispatch i) == 1)))
        = true := by
  intro supported outcome
  cases supported <;> cases outcome <;> decide

/-- C2 counterexample: with port 50051 taken (all other ports free),
`sock.bind` raises outside the try/finally, so `_reserve_port`
propagates the error with the probe socket left open: the claim that
the probe socket is closed on every exit path, including a failure of
the bind itself, is false at this input. -/
theorem reserve_port_probe_leaks_on_bind_failure :
    avail50051Busy 50052 = true ∧
      (reservePort Platform.reuseportAvailable avail50051Busy
        (fun p s => Except.ok (p, s))).result = Except.error PyErr.bindError ∧
      (reservePort Platform.reuseportAvailable avail50051Busy
        (fun p s => Except.ok (p, s))).probeClosed = false := by
  refine ⟨by decide, by rfl, by decide⟩

/-- C2 amended: the probe socket is closed exactly when the bind
succeeded — i.e. on every exit path after a successful bind (normal
body completion, a body exception, and the option-setting-failure
platform alike), but when the bind itself fails the exception
propagates with the probe socket still open. -/
theorem reserve_port_probe_closed_iff_bind_succeeds :
    ∀ (A : Type) (plat : Platform) (avail : Nat → Bool)
      (body : Nat → Bool → Except PyErr A),
      (reservePort plat avail body).probeClosed = avail 50051 := by
  intro A plat avail body
  unfold reservePort bindSock
  cases h : avail 50051 <;> simp [h]

/-- C3: the pool has exactly 1 worker when shared binding is
unsupported and exactly 2 (the configured default count) when it is
supported, and it is a replicate of one identical actor whose bind
address is built from the reserved port — so every worker gets the
identical bind address. -/
theorem main_pool_size_and_shared_bind_address :
    ∀ (ri : String) (supported : Bool) (port : Nat),
      (mkActors ri supported port).length = (if supported then 2 else 1) ∧
        mkActors ri supported port =
          List.replicate (poolSize supported)
            (GRPCIngestorActor.init ri ("localhost:" ++ toString port)) := by
  intro ri supported port
  refine ⟨?_, mkActors_eq_replicate ri supported port⟩
  cases supported <;> rfl

/-- C4: on the platform where setting SO_REUSEPORT fails
(AttributeError), `_reserve_port` catches the failure internally,
records `supported = false`, and continues: the body runs with the
bound port and `supported = false`, the reservation returns the body
result (no option error propagated), and the probe socket is closed. -/
theorem reserve_port_option_failure_degrades_gracefully :
    ∀ (A : Type) (avail : Nat → Bool)
      (body : Nat → Bool → Except PyErr A),
      avail 50051 = true →
        (reservePort Platform.reuseportAttrMissing avail body).result
            = body 50051 false ∧
          (reservePort Platform.reuseportAttrMissing avail body).probeClosed
            = true := by
  intro A avail body h
  unfold reservePort bindSock
  simp [h, platformSupported]

/-- C4 witness: every port free, body returns the pair it receives:
the reservation yields (50051, false) and closes the probe socket. -/
theorem reserve_port_option_failure_degrades_gracefully_witness :
    (reservePort Platform.reuseportAttrMissing availAll
        (fun p s => Except.ok (p, s))).result = Except.ok (50051, false) ∧
      (reservePort Platform.reuseportAttrMissing availAll
        (fun p s => Except.ok (p, s))).probeClosed = true :=
  reserve_port_option_failure_degrades_gracefully (Nat × Bool) availAll
    (fun p s => Except.ok (p, s)) rfl

/-- C5 counterexample: on a worker in the Serving state, `stop()` never
invokes `self.server.stop` — the listener/service is not asked to stop
accepting work, so the claim that `stop()` has an effect on the
server/listener (not only on supervisor-visible bookkeeping) is false
at this input. -/
theorem stop_does_not_touch_server :
    servingActor.serverStarted = true ∧
      (GRPCIngestorActor.stop servingActor).serverStopCalled = false ∧
      (GRPCIngestorActor.stop servingActor).serverStarted = true :=
  ⟨rfl, rfl, rfl⟩

/-- C5 amended: `stop()` records the stop request only in the
bookkeeping field `run` (setting it to False); it does not invoke any
operation on the server/listener, which keeps serving. -/
theorem stop_sets_run_flag_only :
    ∀ (a : GRPCIngestorActor),
      (GRPCIngestorActor.stop a).run = some false ∧
        (GRPCIngestorActor.stop a).serverStopCalled = a.serverStopCalled ∧
        (GRPCIngestorActor.stop a).serverStarted = a.serverStarted ∧
        (GRPCIngestorActor.stop a).portAdded = a.portAdded := by
  intro a
  exact ⟨rfl, rfl, rfl, rfl⟩

/-- C6 counterexample: on a worker whose `start()` acquired the redis
connection and started the server, `destroy()` releases neither: the
server is not stopped and the backing-store connection is not closed,
so the claim that `destroy()` releases the listener and the
backing-store connection is false at this input. -/
theorem destroy_releases_nothing :
    servingActor.redisConnected = true ∧
      servingActor.serverStarted = true ∧
      (GRPCIngestorActor.destroy servingActor).serverStopCalled = false ∧
      (GRPCIngestorActor.destroy servingActor).redisClosed = false :=
  ⟨rfl, rfl, rfl, rfl⟩

/-- C6 amended: `destroy()` only sets the bookkeeping field `run` to
False; it is a total operation safe in every state — in particular on a
freshly constructed worker whose `start()` never completed it raises
nothing and changes only `run` — but it releases neither the listener
nor the backing-store connection in any state. -/
theorem destroy_sets_run_flag_only_and_is_safe :
    ∀ (a : GRPCIngestorActor) (ri ba : String),
      (GRPCIngestorActor.destroy a).run = some false ∧
        (GRPCIngestorActor.destroy a).serverStopCalled = a.serverStopCalled ∧
        (GRPCIngestorActor.destroy a).redisClosed = a.redisClosed ∧
        (GRPCIngestorActor.destroy a).redisConnected = a.redisConnected ∧
        GRPCIngestorActor.destroy (GRPCIngestorActor.init ri ba)
          = { GRPCIngestorActor.init ri ba with run := some false } := by
  intro a ri ba
  exact ⟨rfl, rfl, rfl, rfl, rfl⟩

/-- C7: when KeyboardInterrupt arrives during the wait on the workers'
`start()` calls, every constructed worker receives exactly one `stop()`
and exactly one `destroy()`, every stop dispatch precedes every destroy
dispatch in the trace, and `main` returns without raising. -/
theorem main_interrupt_stops_all_then_destroys_all :
    ∀ (supported : Bool),
      ((List.range (poolSize supported)).all
          (fun i =>
            ((mainTrace supported WaitOutcome.keyboardInterrupt).count
                (Event.stopDispatch i) == 1)
              && ((mainTrace supported WaitOutcome.keyboardInterrupt).count
                (Event.destroyDispatch i) == 1))) = true ∧
        stopsBeforeDestroys
            (mainTrace supported WaitOutcome.keyboardInterrupt) = true ∧
        mainResult WaitOutcome.keyboardInterrupt = Except.ok () := by
  intro supported
  cases supported <;> exact ⟨by decide, by decide, rfl⟩

/-- C8 counterexample: with the fixed probe port 50051 taken and every
other port free, the reservation raises a bind error instead of
returning an OS-assigned port — the claim that an OS-assigned port is
used when the fixed default is unavailable is false at this input. -/
theorem reserve_port_no_os_assigned_fallback :
    avail50051Busy 50052 = true ∧
      supervisorActors Platform.reuseportAvailable avail50051Busy
        "redis_info" = Except.error PyErr.bindError := by
  refine ⟨by decide, by rfl⟩

/-- C8 amended: the port is always the fixed well-known port 50051:
when it is available every worker is built with the identical bind
address localhost:50051 (loopback host, the reserved port read back
from the probe socket), and when it is unavailable the reservation
fails with a fatal bind error — there is no OS-assigned fallback. -/
theorem supervisor_port_fixed_50051 :
    ∀ (plat : Platform) (avail : Nat → Bool) (ri : String),
      supervisorActors plat avail ri =
        if avail 50051 then
          Except.ok
            (List.replicate (poolSize (platformSupported plat))
              (GRPCIngestorActor.init ri ("localhost:" ++ toString 50051)))
        else Except.error PyErr.bindError := by
  intro plat avail ri
  unfold supervisorActors reservePort bindSock
  cases h : avail 50051 <;> simp [h, mkActors_eq_replicate]

/-- C9: `stop()` is idempotent: calling it on a worker that was already
stopped, or already destroyed, is a no-op that raises nothing and
leaves the state exactly as it was — stop twice equals stop once. -/
theorem stop_idempotent :
    ∀ (a : GRPCIngestorActor),
      GRPCIngestorActor.stop (GRPCIngestorActor.stop a)
          = GRPCIngestorActor.stop a ∧
        GRPCIngestorActor.stop (GRPCIngestorActor.destroy a)
          = GRPCIngestorActor.destroy a := by
  intro a
  exact ⟨rfl, rfl⟩

/-- C10: both `stop()` and `destroy()` are exactly the update
`run := False`: every other piece of worker-owned state — the server
object and whether it is serving, its port registration, the servicer,
and the redis connection — is left untouched, so neither call
terminates the serving loop `start()` is blocked in. -/
theorem stop_destroy_frame :
    ∀ (a : GRPCIngestorActor),
      GRPCIngestorActor.stop a = { a with run := some false } ∧
        GRPCIngestorActor.destroy a = { a with run := some false } := by
  intro a
  exact ⟨rfl, rfl⟩
